import Mathlib

/-!
Verification development for the `guppy-runner` staged compilation pipeline.

The definitions below are a shallow embedding of the repository's Python
sources (`guppy_runner/__main__.py` and
`guppy_runner/compile/llvm_compiler.py`).  File-system paths are modelled as
plain strings, the process environment as a partial map from variable names
to values, and the single external-process invocation of the LLVM stage
compiler as an oracle describing the outcome of `subprocess.run`.
Parts of the package that are referenced but whose modules are not in the
source tree (`guppy_runner/stage.py`, `guppy_runner/compile/__init__.py`,
`guppy_runner/__init__.py`) are modelled from the specification and marked
as such in their doc comments.
-/

/-- Paths (`pathlib.Path`) are modelled as plain strings. -/
abbrev FsPath := String

/-- Modelled from the spec: the ordered `Stage` enumeration from
`guppy_runner/stage.py` (not in the source tree).  Spec §3: a closed,
strictly totally ordered set of pipeline positions; the member names are
those used by `guppy_runner/__main__.py`. -/
inductive Stage where
  | GUPPY
  | HUGR
  | HUGR_MLIR
  | LOWERED_MLIR
  | LLVM
  | OBJECT
  | EXECUTABLE
deriving DecidableEq, Repr

/-- The numeric ordinal of a stage, realising the spec's total order
`GUPPY < HUGR < HUGR_MLIR < LOWERED_MLIR < LLVM < OBJECT < EXECUTABLE`. -/
def Stage.toNat : Stage → Nat
  | .GUPPY => 0
  | .HUGR => 1
  | .HUGR_MLIR => 2
  | .LOWERED_MLIR => 3
  | .LLVM => 4
  | .OBJECT => 5
  | .EXECUTABLE => 6

/-- Stage comparison `a >= b`, as used by `validate_args`
(`args.input_stage >= stage`). -/
def Stage.ge (a b : Stage) : Bool := b.toNat ≤ a.toNat

/-- The `.name` attribute of a stage enum member, used in the
`parser.error` message of `validate_args`. -/
def Stage.name : Stage → String
  | .GUPPY => "GUPPY"
  | .HUGR => "HUGR"
  | .HUGR_MLIR => "HUGR_MLIR"
  | .LOWERED_MLIR => "LOWERED_MLIR"
  | .LLVM => "LLVM"
  | .OBJECT => "OBJECT"
  | .EXECUTABLE => "EXECUTABLE"

/-- Modelled from the spec: the `EncodingMode` enumeration from
`guppy_runner/stage.py` (not in the source tree).  Spec §3: one of
`TEXTUAL`, `BITCODE`. -/
inductive EncodingMode where
  | TEXTUAL
  | BITCODE
deriving DecidableEq, Repr

/-- The file extension of a path (Python `Path.suffix`): the part of the
last path segment from its last dot on, empty when the last segment has no
dot, starts with its only dot, or ends with its last dot. -/
def fileSuffix (p : FsPath) : String :=
  let cs := (p.data.reverse.takeWhile (fun c => c ≠ '/')).reverse
  match cs.reverse.findIdx? (fun c => c = '.') with
  | none => ""
  | some j =>
    let i := cs.length - 1 - j
    if 0 < i ∧ 0 < j then ((cs.reverse.take (j + 1)).reverse).asString else ""

/-- Modelled from the spec: `EncodingMode.from_file` from
`guppy_runner/stage.py` (not in the source tree).  Spec §4.1/§6: a fixed
per-stage table of known extensions to encodings (high-level source
extension is textual; msgpack-like vs json-like serialized forms at the
HUGR stage are bitcode vs textual; dialect textual `.mlir` vs bytecode
`.mlirbc`; native-IR textual `.ll` vs bitcode `.bc`; object `.o` is
bitcode only); an unrecognized extension yields no detection. -/
def EncodingMode.from_file (path : FsPath) (stage : Stage) : Option EncodingMode :=
  match stage, fileSuffix path with
  | .GUPPY, ".py" => some .TEXTUAL
  | .HUGR, ".msgpack" => some .BITCODE
  | .HUGR, ".json" => some .TEXTUAL
  | .HUGR_MLIR, ".mlir" => some .TEXTUAL
  | .HUGR_MLIR, ".mlirbc" => some .BITCODE
  | .LOWERED_MLIR, ".mlir" => some .TEXTUAL
  | .LOWERED_MLIR, ".mlirbc" => some .BITCODE
  | .LLVM, ".ll" => some .TEXTUAL
  | .LLVM, ".bc" => some .BITCODE
  | .OBJECT, ".o" => some .BITCODE
  | _, _ => none

/-- Where a `StageData` payload came from. -/
inductive DataSource where
  | file (path : FsPath)
  | stdin
deriving DecidableEq, Repr

/-- Modelled from the spec: the `StageData` container from
`guppy_runner/stage.py` (not in the source tree).  Spec §3: an immutable
value combining a stage, an encoding and a payload; the payload bytes are
abstracted here to the reference they are read from. -/
structure StageData where
  stage : Stage
  encoding : EncodingMode
  source : DataSource
deriving DecidableEq, Repr

/-- Modelled from the spec: `StageData.from_path` (§4.2) constructs the
container from a file reference. -/
def StageData.from_path (stage : Stage) (path : FsPath)
    (encoding : EncodingMode) : StageData :=
  ⟨stage, encoding, .file path⟩

/-- Modelled from the spec: `StageData.from_stdin` (§4.2) constructs the
container from the standard-input stream. -/
def StageData.from_stdin (stage : Stage) (encoding : EncodingMode) : StageData :=
  ⟨stage, encoding, .stdin⟩

/-! ## The command-line argument record (`guppy_runner/__main__.py`) -/

/-- The parsed argparse `Namespace` of `parse_args`, with one field per
`add_argument` call.  `store_true` flags are booleans, optional path
arguments are `Option FsPath`. -/
structure Args where
  verbose : Bool := false
  module_name : Option String := none
  input : Option FsPath := none
  hugr : Bool := false
  hugr_mlir : Bool := false
  llvm_mlir : Bool := false
  llvm : Bool := false
  bitcode : Bool := false
  textual : Bool := false
  store_hugr : Option FsPath := none
  store_hugr_mlir : Option FsPath := none
  store_llvm_mlir : Option FsPath := none
  store_llvm : Option FsPath := none
  store_obj : Option FsPath := none
  store_bin : Option FsPath := none
  output : Option FsPath := none
  no_run : Bool := false
deriving Repr

/-- `get_input_state` from `guppy_runner/__main__.py`: the stage of the
input file, determined by the mutually exclusive input-mode flags,
defaulting to `GUPPY`. -/
def get_input_state (args : Args) : Stage :=
  if args.hugr then .HUGR
  else if args.hugr_mlir then .HUGR_MLIR
  else if args.llvm_mlir then .LOWERED_MLIR
  else if args.llvm then .LLVM
  else .GUPPY

/-- `get_input_encoding` from `guppy_runner/__main__.py`: explicit
`--textual` / `--bitcode` overrides win; otherwise detect from the input
file extension, defaulting to `BITCODE` for files and `TEXTUAL` for
standard input. -/
def get_input_encoding (args : Args) (input_stage : Stage) : EncodingMode :=
  if args.textual then .TEXTUAL
  else if args.bitcode then .BITCODE
  else
    let input_encoding : Option EncodingMode :=
      match args.input with
      | some p => EncodingMode.from_file p input_stage
      | none => some .TEXTUAL
    input_encoding.getD .BITCODE

/-- The `store_requires` association list of `validate_args`: each
intermediary-store option paired with the stage it would persist. -/
def store_requires (args : Args) : List (Option FsPath × Stage) :=
  [ (args.store_hugr, .HUGR),
    (args.store_hugr_mlir, .HUGR_MLIR),
    (args.store_llvm_mlir, .LOWERED_MLIR),
    (args.store_llvm, .LLVM),
    (args.store_obj, .OBJECT),
    (args.store_bin, .EXECUTABLE) ]

/-- The `parser.error` message emitted by `validate_args` for an
offending stage. -/
def validateErrorMsg (stage : Stage) : String :=
  "Cannot produce a " ++ stage.name ++ " artifact from the given input."

/-- One pass of the `validate_args` loop: the first pair whose store path
is given and whose stage is at or before the input stage produces the
usage-error message; with no offending pair the loop falls through. -/
def validateLoop (input_stage : Stage) :
    List (Option FsPath × Stage) → Option String
  | [] => none
  | (store, stage) :: rest =>
    if store.isSome && input_stage.ge stage then some (validateErrorMsg stage)
    else validateLoop input_stage rest

/-- `validate_args` from `guppy_runner/__main__.py`: `none` means
validation passed silently, `some msg` means `parser.error msg` was
called (which prints the message and exits with a usage error). -/
def validate_args (args : Args) (input_stage : Stage) : Option String :=
  validateLoop input_stage (store_requires args)

/-- The `StageData` that `main` constructs from the parsed arguments:
`from_path` when an input file was given, `from_stdin` otherwise. -/
def mainStageData (args : Args) (input_stage : Stage)
    (input_encoding : EncodingMode) : StageData :=
  match args.input with
  | some p => StageData.from_path input_stage p input_encoding
  | none => StageData.from_stdin input_stage input_encoding

/-- `main` from `guppy_runner/__main__.py`, with the pipeline driver
`run_guppy_from_stage` (whose module is not in the source tree) abstracted
as an oracle from the constructed `StageData` to its reported success.
`Except.error msg` is the `parser.error` usage-error exit taken inside
`parse_args`, before any `StageData` is constructed or the driver runs;
`Except.ok code` is the process exit code: `sys.exit 1` when the driver
reports failure, falling off the end of `main` (exit code 0) otherwise. -/
def mainModel (args : Args) (run_guppy_from_stage : StageData → Bool) :
    Except String Nat :=
  let input_stage := get_input_state args
  let input_encoding := get_input_encoding args input_stage
  match validate_args args input_stage with
  | some msg => .error msg
  | none =>
    let stage_data := mainStageData args input_stage input_encoding
    let success := run_guppy_from_stage stage_data
    .ok (if success then 0 else 1)

/-! ## The LLVM stage compiler (`guppy_runner/compile/llvm_compiler.py`) -/

/-- The process environment: a partial map from variable names to values. -/
abbrev Env := String → Option String

/-- The conventional binary name, constant `LLC` of the module. -/
def LLC : String := "llc"

/-- The environment variable consulted for an override, constant
`LLC_ENV` of the module. -/
def LLC_ENV : String := "LLC"

/-- Constant `DEFAULT_OBJ` of the module: the fixed default object-file
name used when no output path is given. -/
def DEFAULT_OBJ : FsPath := "a.o"

/-- `LlvmCompiler._get_compiler`: the `llc` binary path and whether it was
overridden via the environment variable. -/
def LlvmCompiler.get_compiler (env : Env) : FsPath × Bool :=
  match env LLC_ENV with
  | some v => (v, true)
  | none => (LLC, false)

/-- The outcome of the `subprocess.run` call: the binary was not found
(`FileNotFoundError`), it ran and exited non-zero (`CalledProcessError`
with the captured standard-error stream), or it succeeded. -/
inductive SubprocessResult where
  | notFound
  | failed (stderr : String)
  | ok
deriving DecidableEq, Repr

/-- Python `splitlines` on the captured error stream, over the line
terminators it recognises in byte strings: a line break at `\n`, `\r`, or
the pair `\r\n`; no trailing empty line. -/
def splitlinesAux : List Char → List Char → List (List Char)
  | [], acc => if acc.isEmpty then [] else [acc.reverse]
  | '\r' :: '\n' :: rest, acc => acc.reverse :: splitlinesAux rest []
  | '\n' :: rest, acc => acc.reverse :: splitlinesAux rest []
  | '\r' :: rest, acc => acc.reverse :: splitlinesAux rest []
  | c :: rest, acc => splitlinesAux rest (c :: acc)

/-- Python `str.splitlines` / `bytes.splitlines` as a list of lines. -/
def splitlines (s : String) : List String :=
  (splitlinesAux s.data []).map List.asString

/-- The `err_line` computed by `LlcError.__init__`:
`next(iter(perror.stderr.splitlines()), "")`, i.e. the first line of the
captured error stream, or `""` when the stream has no lines. -/
def firstErrLine (stderr : String) : String :=
  (splitlines stderr).headD ""

/-- The exception classes raised by the LLVM stage compiler, each carrying
the message its constructor builds. -/
inductive CompilerErr where
  | unsupportedEncoding (stage : Stage) (encoding : EncodingMode)
  | llcNotFound (msg : String)
  | llcError (msg : String)
deriving DecidableEq, Repr

/-- The message of `LlcNotFoundError.__init__`: a fixed string naming the
conventional `llc` binary and the `$PATH` search. -/
def llcNotFoundMsg : String :=
  "Could not find '" ++ LLC ++ "' binary in your $PATH."

/-- The message of `LlcError.__init__`: a fixed preamble naming `llc`
followed by the first line of the captured error stream. -/
def llcErrorMsg (stderr : String) : String :=
  "An error occurred while calling '" ++ LLC ++ "':\n" ++ firstErrLine stderr

/-- The exception class hierarchy around the LLVM compiler errors.
`LlvmError` extends `CompilerError` and both `LlcNotFoundError` and
`LlcError` extend `LlvmError` (source lines 82–102);
`UnsupportedEncodingError` extending `CompilerError` is modelled from the
spec (its module `guppy_runner/compile/__init__.py` is not in the source
tree; spec §4.3: all such errors are subclasses of a common
`CompilerError` family). -/
inductive ErrClass where
  | compilerError
  | llvmError
  | llcNotFoundError
  | llcErrorClass
  | unsupportedEncodingError
deriving DecidableEq, Repr

/-- The reflexive-transitive chain of superclasses of each error class,
read off the `class ... (...)` declarations. -/
def ErrClass.superclasses : ErrClass → List ErrClass
  | .compilerError => [.compilerError]
  | .llvmError => [.llvmError, .compilerError]
  | .llcNotFoundError => [.llcNotFoundError, .llvmError, .compilerError]
  | .llcErrorClass => [.llcErrorClass, .llvmError, .compilerError]
  | .unsupportedEncodingError => [.unsupportedEncodingError, .compilerError]

/-- Class `c` is a (non-strict) subclass of class `d`. -/
def ErrClass.isSubclassOf (c d : ErrClass) : Bool :=
  d ∈ c.superclasses

/-- The class of each raised exception value. -/
def CompilerErr.cls : CompilerErr → ErrClass
  | .unsupportedEncoding _ _ => .unsupportedEncodingError
  | .llcNotFound _ => .llcNotFoundError
  | .llcError _ => .llcErrorClass

/-- Python truthiness of the `output_path` argument: `None` and an empty
path are falsy, any other path is truthy. -/
def pathTruthy : Option FsPath → Bool
  | none => false
  | some p => p ≠ ""

/-- `LlvmCompiler.OUTPUT_STAGE`. -/
def LlvmCompiler.OUTPUT_STAGE : Stage := .OBJECT

/-- `LlvmCompiler.INPUT_STAGE`. -/
def LlvmCompiler.INPUT_STAGE : Stage := .LLVM

/-- `LlvmCompiler.process_stage`: compile the LLVMIR artifact into an
object file.  `env` is the process environment and `runner` the oracle
giving the outcome of the `subprocess.run` call on the constructed
command line.  The result pairs the Python outcome (the raised exception
or the returned output path) with the list of external-process
invocations issued. -/
def LlvmCompiler.process_stage (env : Env) (runner : List String → SubprocessResult)
    (input_path : FsPath) (input_encoding : EncodingMode)
    (output_path : Option FsPath) (output_encoding : EncodingMode)
    (temp_file : Bool) (module_name : Option String) :
    Except CompilerErr FsPath × List (List String) :=
  let _ := (input_path, input_encoding, output_encoding, temp_file, module_name)
  if output_encoding = .TEXTUAL then
    (.error (.unsupportedEncoding LlvmCompiler.OUTPUT_STAGE output_encoding), [])
  else
    let output_path' : FsPath :=
      if pathTruthy output_path then output_path.getD DEFAULT_OBJ else DEFAULT_OBJ
    let cmd : List String :=
      [(LlvmCompiler.get_compiler env).1, input_path, "--filetype=obj"] ++
        (if output_path' ≠ "" then ["-o", output_path'] else [])
    match runner cmd with
    | .notFound => (.error (.llcNotFound llcNotFoundMsg), [cmd])
    | .failed stderr => (.error (.llcError (llcErrorMsg stderr)), [cmd])
    | .ok => (.ok output_path', [cmd])

/-- Whether a list of characters occurs at the start of another. -/
def startsWithChars : List Char → List Char → Bool
  | [], _ => true
  | _ :: _, [] => false
  | a :: as, b :: bs => a = b && startsWithChars as bs

/-- Whether `needle` occurs anywhere inside `hay`. -/
def containsChars (needle : List Char) : List Char → Bool
  | [] => startsWithChars needle []
  | b :: bs => startsWithChars needle (b :: bs) || containsChars needle bs

/-- Whether string `needle` is a substring of `hay`. -/
def strContains (hay needle : String) : Bool :=
  containsChars needle.data hay.data

/-! ## Helper lemmas -/

/-- Every encoding value is one of the two encodings. -/
theorem EncodingMode.eq_textual_or_bitcode (e : EncodingMode) :
    e = .TEXTUAL ∨ e = .BITCODE := by
  cases e
  · exact Or.inl rfl
  · exact Or.inr rfl

/-- The `validate_args` loop reports an error exactly when some pair in the
list has a store path given and a stage at or before the input stage. -/
theorem validateLoop_isSome_iff (ist : Stage) (l : List (Option FsPath × Stage)) :
    (validateLoop ist l).isSome ↔
      ∃ pr ∈ l, pr.1.isSome = true ∧ ist.ge pr.2 = true := by
  induction l with
  | nil => simp [validateLoop]
  | cons hd tl ih =>
    obtain ⟨store, stage⟩ := hd
    simp only [validateLoop]
    by_cases h : (store.isSome && ist.ge stage) = true
    · rw [if_pos h]
      rw [Bool.and_eq_true] at h
      simp [h.1, h.2]
    · rw [if_neg h]
      rw [Bool.and_eq_true] at h
      simp only [ih, List.mem_cons]
      constructor
      · rintro ⟨pr, hm, hp⟩
        exact ⟨pr, Or.inr hm, hp⟩
      · rintro ⟨pr, hm | hm, hp⟩
        · rcases hm with rfl
          exact absurd hp h
        · exact ⟨pr, hm, hp⟩

/-- When the `validate_args` loop reports an error, the message names the
stage of some offending pair. -/
theorem validateLoop_some_msg (ist : Stage) (l : List (Option FsPath × Stage))
    (m : String) (h : validateLoop ist l = some m) :
    ∃ pr ∈ l, pr.1.isSome = true ∧ ist.ge pr.2 = true ∧ m = validateErrorMsg pr.2 := by
  induction l with
  | nil => simp [validateLoop] at h
  | cons hd tl ih =>
    obtain ⟨store, stage⟩ := hd
    by_cases hc : (store.isSome && ist.ge stage) = true
    · rw [validateLoop, if_pos hc] at h
      rw [Bool.and_eq_true] at hc
      exact ⟨(store, stage), List.mem_cons_self _ _, hc.1, hc.2, (Option.some_inj.mp h).symm⟩
    · rw [validateLoop, if_neg hc] at h
      obtain ⟨pr, hm, hp⟩ := ih h
      exact ⟨pr, List.mem_cons_of_mem _ hm, hp⟩

/-! ## Claim theorems -/

/-- C1: `LlvmCompiler.process_stage` called with `output_encoding =
TEXTUAL` raises `UnsupportedEncodingError` carrying the `OBJECT` stage and
the requested encoding, and spawns no external process: the recorded
invocation list is empty. -/
theorem process_stage_textual_object_rejected
    (env : Env) (runner : List String → SubprocessResult)
    (input_path : FsPath) (input_encoding : EncodingMode)
    (output_path : Option FsPath) (temp_file : Bool)
    (module_name : Option String) :
    LlvmCompiler.process_stage env runner input_path input_encoding
        output_path EncodingMode.TEXTUAL temp_file module_name =
      (Except.error (CompilerErr.unsupportedEncoding Stage.OBJECT EncodingMode.TEXTUAL),
        []) := rfl

/-- C9: the `input_encoding`, `temp_file` and `module_name` arguments of
`LlvmCompiler.process_stage` are discarded: two calls differing only in
them produce the identical outcome and identical external invocations. -/
theorem process_stage_ignores_discarded_args
    (env : Env) (runner : List String → SubprocessResult)
    (input_path : FsPath) (output_path : Option FsPath)
    (output_encoding : EncodingMode)
    (ie₁ ie₂ : EncodingMode) (tf₁ tf₂ : Bool) (mn₁ mn₂ : Option String) :
    LlvmCompiler.process_stage env runner input_path ie₁ output_path
        output_encoding tf₁ mn₁ =
      LlvmCompiler.process_stage env runner input_path ie₂ output_path
        output_encoding tf₂ mn₂ := rfl

/-- C6: `LlvmCompiler._get_compiler` uses the value of the `LLC`
environment variable (with the override flag `true`) when it is set, and
otherwise the bare conventional name `llc` (with the flag `false`). -/
theorem get_compiler_env_resolution (env : Env) (v : String) :
    (env LLC_ENV = some v → LlvmCompiler.get_compiler env = (v, true)) ∧
    (env LLC_ENV = none → LlvmCompiler.get_compiler env = (LLC, false)) := by
  constructor
  · intro h
    simp [LlvmCompiler.get_compiler, h]
  · intro h
    simp [LlvmCompiler.get_compiler, h]

/-- Witness for C6: an environment binding `LLC` to `/opt/llc` resolves to
that path with the override flag set. -/
theorem get_compiler_env_resolution_witness :
    LlvmCompiler.get_compiler
        (fun k => if k = "LLC" then some "/opt/llc" else none) =
      ("/opt/llc", true) :=
  (get_compiler_env_resolution
    (fun k => if k = "LLC" then some "/opt/llc" else none) "/opt/llc").1 rfl

/-- C7: on success, `LlvmCompiler.process_stage` returns the given
`output_path` when one was given, and the fixed constant default `a.o`
when the output path is `None` or empty; the default is the constant
`DEFAULT_OBJ`, not a generated temporary name. -/
theorem process_stage_output_default
    (env : Env) (runner : List String → SubprocessResult)
    (input_path : FsPath) (input_encoding : EncodingMode)
    (output_path : Option FsPath) (temp_file : Bool)
    (module_name : Option String)
    (hok : ∀ c, runner c = SubprocessResult.ok) :
    (∀ p, output_path = some p → p ≠ "" →
      (LlvmCompiler.process_stage env runner input_path input_encoding
          output_path EncodingMode.BITCODE temp_file module_name).1 =
        Except.ok p) ∧
    ((output_path = none ∨ output_path = some "") →
      (LlvmCompiler.process_stage env runner input_path input_encoding
          output_path EncodingMode.BITCODE temp_file module_name).1 =
        Except.ok DEFAULT_OBJ) ∧
    DEFAULT_OBJ = "a.o" := by
  refine ⟨?_, ?_, rfl⟩
  · rintro p rfl hne
    simp [LlvmCompiler.process_stage, pathTruthy, hne, hok]
  · rintro (rfl | rfl) <;>
      simp [LlvmCompiler.process_stage, pathTruthy, hok, DEFAULT_OBJ]

/-- Witness for C7: with a succeeding tool, an explicit output path
`out.o` is returned unchanged, and omitting the output path returns
`a.o`. -/
theorem process_stage_output_default_witness :
    (LlvmCompiler.process_stage (fun _ => none) (fun _ => SubprocessResult.ok)
        "in.ll" EncodingMode.BITCODE (some "out.o") EncodingMode.BITCODE
        false none).1 = Except.ok "out.o" ∧
    (LlvmCompiler.process_stage (fun _ => none) (fun _ => SubprocessResult.ok)
        "in.ll" EncodingMode.BITCODE none EncodingMode.BITCODE
        false none).1 = Except.ok "a.o" :=
  ⟨(process_stage_output_default (fun _ => none) (fun _ => SubprocessResult.ok)
      "in.ll" EncodingMode.BITCODE (some "out.o") false none
      (fun _ => rfl)).1 "out.o" rfl (by decide),
   (process_stage_output_default (fun _ => none) (fun _ => SubprocessResult.ok)
      "in.ll" EncodingMode.BITCODE none false none
      (fun _ => rfl)).2.1 (Or.inl rfl)⟩

/-- C4: when the external binary runs and exits with a non-zero status,
`LlvmCompiler.process_stage` raises `LlcError`, whose message is the fixed
preamble followed by exactly the first line of the captured standard-error
stream (the empty string when the stream is empty), and `LlcError` is a
subclass of the common `CompilerError` family. -/
theorem process_stage_failed_tool_error
    (env : Env) (runner : List String → SubprocessResult)
    (input_path : FsPath) (input_encoding : EncodingMode)
    (output_path : Option FsPath) (temp_file : Bool)
    (module_name : Option String) (stderr : String)
    (hfail : ∀ c, runner c = SubprocessResult.failed stderr) :
    (LlvmCompiler.process_stage env runner input_path input_encoding
        output_path EncodingMode.BITCODE temp_file module_name).1 =
      Except.error (CompilerErr.llcError
        ("An error occurred while calling 'llc':\n" ++ firstErrLine stderr)) ∧
    (stderr = "" → firstErrLine stderr = "") ∧
    ErrClass.isSubclassOf .llcErrorClass .compilerError = true ∧
    CompilerErr.cls (.llcError (llcErrorMsg stderr)) = .llcErrorClass := by
  refine ⟨?_, ?_, by decide, rfl⟩
  · simp [LlvmCompiler.process_stage, hfail, llcErrorMsg, LLC]
  · rintro rfl
    rfl

/-- Witness for C4: a failing tool whose error stream starts with `boom`
produces an `LlcError` carrying exactly that first line. -/
theorem process_stage_failed_tool_error_witness :
    (LlvmCompiler.process_stage (fun _ => none)
        (fun _ => SubprocessResult.failed "boom\nrest") "in.ll"
        EncodingMode.BITCODE (some "out.o") EncodingMode.BITCODE
        false none).1 =
      Except.error (CompilerErr.llcError
        "An error occurred while calling 'llc':\nboom") := by
  have h := (process_stage_failed_tool_error (fun _ => none)
    (fun _ => SubprocessResult.failed "boom\nrest") "in.ll"
    EncodingMode.BITCODE (some "out.o") false none "boom\nrest"
    (fun _ => rfl)).1
  rw [h]
  rfl

/-- The environment used to refute C5: the `LLC` override names a custom
binary path. -/
def overrideEnv : Env := fun k => if k = "LLC" then some "/custom/mytool" else none

/-- Counterexample to C5: with the environment override naming
`/custom/mytool` as the binary, a binary-not-found failure still raises
`LlcNotFoundError` with the fixed message about `llc` and `$PATH`; the
message does not name the overridden binary that was actually expected on
the resolution path. -/
theorem llc_not_found_override_counterexample :
    LlvmCompiler.get_compiler overrideEnv = ("/custom/mytool", true) ∧
    (LlvmCompiler.process_stage overrideEnv (fun _ => SubprocessResult.notFound)
        "in.ll" EncodingMode.BITCODE none EncodingMode.BITCODE
        false none).1 =
      Except.error (CompilerErr.llcNotFound
        "Could not find 'llc' binary in your $PATH.") ∧
    strContains "Could not find 'llc' binary in your $PATH." "/custom/mytool"
      = false ∧
    strContains "Could not find 'llc' binary in your $PATH." "mytool" = false := by
  refine ⟨rfl, rfl, by decide, by decide⟩

/-- C5 (amended): when the external binary cannot be located,
`LlvmCompiler.process_stage` raises `LlcNotFoundError` whose message is
the fixed string naming the conventional `llc` binary and the `$PATH`
search, regardless of any environment-variable override; the error is a
subclass of the common `CompilerError` family. -/
theorem process_stage_not_found_error
    (env : Env) (runner : List String → SubprocessResult)
    (input_path : FsPath) (input_encoding : EncodingMode)
    (output_path : Option FsPath) (temp_file : Bool)
    (module_name : Option String)
    (hnf : ∀ c, runner c = SubprocessResult.notFound) :
    (LlvmCompiler.process_stage env runner input_path input_encoding
        output_path EncodingMode.BITCODE temp_file module_name).1 =
      Except.error (CompilerErr.llcNotFound llcNotFoundMsg) ∧
    llcNotFoundMsg = "Could not find 'llc' binary in your $PATH." ∧
    strContains llcNotFoundMsg LLC = true ∧
    ErrClass.isSubclassOf .llcNotFoundError .compilerError = true := by
  refine ⟨?_, rfl, by decide, by decide⟩
  simp [LlvmCompiler.process_stage, hnf]

/-- Witness for C5 (amended): with no override and a missing binary, the
fixed not-found message is raised. -/
theorem process_stage_not_found_error_witness :
    (LlvmCompiler.process_stage (fun _ => none)
        (fun _ => SubprocessResult.notFound) "in.ll" EncodingMode.BITCODE
        none EncodingMode.BITCODE false none).1 =
      Except.error (CompilerErr.llcNotFound llcNotFoundMsg) :=
  (process_stage_not_found_error (fun _ => none)
    (fun _ => SubprocessResult.notFound) "in.ll" EncodingMode.BITCODE
    none false none (fun _ => rfl)).1

/-- C2: input-encoding resolution is total (always one of the two
encodings, for every argument record and stage); an explicit `--textual`
flag yields `TEXTUAL` and an explicit `--bitcode` flag yields `BITCODE`
regardless of input path or stage; with no override, a file input whose
extension is not recognized defaults to `BITCODE`, and a standard-input
artifact defaults to `TEXTUAL`. -/
theorem get_input_encoding_total_and_defaults (args : Args) (st : Stage) :
    (get_input_encoding args st = EncodingMode.TEXTUAL ∨
      get_input_encoding args st = EncodingMode.BITCODE) ∧
    (args.textual = true → get_input_encoding args st = EncodingMode.TEXTUAL) ∧
    (args.textual = false → args.bitcode = true →
      get_input_encoding args st = EncodingMode.BITCODE) ∧
    (args.textual = false → args.bitcode = false →
      ∀ p, args.input = some p → EncodingMode.from_file p st = none →
        get_input_encoding args st = EncodingMode.BITCODE) ∧
    (args.textual = false → args.bitcode = false → args.input = none →
      get_input_encoding args st = EncodingMode.TEXTUAL) := by
  refine ⟨EncodingMode.eq_textual_or_bitcode _, ?_, ?_, ?_, ?_⟩
  · intro h
    simp [get_input_encoding, h]
  · intro h1 h2
    simp [get_input_encoding, h1, h2]
  · intro h1 h2 p hp hf
    simp [get_input_encoding, h1, h2, hp, hf]
  · intro h1 h2 hi
    simp [get_input_encoding, h1, h2, hi]

/-- Witness for C2: with no override flags, a `.weird` file input at the
default `GUPPY` stage resolves to `BITCODE`, and a standard-input artifact
resolves to `TEXTUAL`. -/
theorem get_input_encoding_total_and_defaults_witness :
    get_input_encoding { input := some "prog.weird" } Stage.GUPPY =
      EncodingMode.BITCODE ∧
    get_input_encoding {} Stage.GUPPY = EncodingMode.TEXTUAL :=
  ⟨(get_input_encoding_total_and_defaults { input := some "prog.weird" }
      Stage.GUPPY).2.2.2.1 rfl rfl "prog.weird" rfl (by decide),
   (get_input_encoding_total_and_defaults {} Stage.GUPPY).2.2.2.2 rfl rfl rfl⟩

/-- C3: `validate_args` reports a usage error exactly when some
intermediary-store option names a stage at or before the input stage; the
error message names the offending stage, `main` then stops with the usage
error before constructing any `StageData` or running the pipeline driver,
and with no offending option validation passes silently and the pipeline
proceeds. -/
theorem validate_args_gates_pipeline (args : Args) (ist : Stage) :
    ((validate_args args ist).isSome ↔
      ∃ pr ∈ store_requires args, pr.1.isSome = true ∧ ist.ge pr.2 = true) ∧
    (∀ m, validate_args args ist = some m →
      ∃ pr ∈ store_requires args, pr.1.isSome = true ∧ ist.ge pr.2 = true ∧
        m = validateErrorMsg pr.2) ∧
    (ist = get_input_state args →
      (∀ m, validate_args args ist = some m →
        ∀ r, mainModel args r = Except.error m) ∧
      (validate_args args ist = none →
        ∀ r, mainModel args r =
          Except.ok (if r (mainStageData args ist (get_input_encoding args ist))
            then 0 else 1))) := by
  refine ⟨validateLoop_isSome_iff ist (store_requires args),
    fun m hm => validateLoop_some_msg ist (store_requires args) m hm, ?_⟩
  rintro rfl
  constructor
  · intro m hm r
    simp [mainModel, hm]
  · intro hn r
    simp [mainModel, hn]

/-- The argument record used to witness C3: input is a Hugr artifact and
the Hugr intermediary store is also requested. -/
def argsStoreHugr : Args := { hugr := true, store_hugr := some "out.msgpack" }

/-- Witness for C3: requesting `--store-hugr` with a `--hugr` input makes
`main` stop with the usage error naming the `HUGR` stage. -/
theorem validate_args_gates_pipeline_witness :
    mainModel argsStoreHugr (fun _ => true) =
      Except.error "Cannot produce a HUGR artifact from the given input." :=
  ((validate_args_gates_pipeline argsStoreHugr Stage.HUGR).2.2 rfl).1
    "Cannot produce a HUGR artifact from the given input." (by decide)
    (fun _ => true)

/-- C8: when validation passes, the process exit code reported by `main`
is `0` exactly when the pipeline driver reports success and `1` exactly
when it reports failure. -/
theorem main_exit_code (args : Args) (r : StageData → Bool)
    (h : validate_args args (get_input_state args) = none) :
    (mainModel args r = Except.ok 0 ↔
      r (mainStageData args (get_input_state args)
          (get_input_encoding args (get_input_state args))) = true) ∧
    (mainModel args r = Except.ok 1 ↔
      r (mainStageData args (get_input_state args)
          (get_input_encoding args (get_input_state args))) = false) := by
  cases hr : r (mainStageData args (get_input_state args)
      (get_input_encoding args (get_input_state args))) <;>
    simp [mainModel, h, hr]

/-- Witness for C8: with default arguments (validation passes), a
succeeding driver exits with code 0 and a failing driver with code 1. -/
theorem main_exit_code_witness :
    mainModel {} (fun _ => true) = Except.ok 0 ∧
    mainModel {} (fun _ => false) = Except.ok 1 :=
  ⟨(main_exit_code {} (fun _ => true) (by decide)).1.mpr rfl,
   (main_exit_code {} (fun _ => false) (by decide)).2.mpr rfl⟩

/-- C10: the resolved input stage is always one of the first five stages
(never `OBJECT` or `EXECUTABLE`), `GUPPY` is the default with no stage
flag; consequently the `OBJECT` and `EXECUTABLE` store options can never
satisfy the at-or-before-input-stage condition, and with the four earlier
store options unset validation always passes whatever `--store-obj` and
`--store-bin` are. -/
theorem input_stage_never_reaches_object (args : Args) :
    (get_input_state args).toNat ≤ Stage.LLVM.toNat ∧
    get_input_state args ≠ Stage.OBJECT ∧
    get_input_state args ≠ Stage.EXECUTABLE ∧
    (args.hugr = false → args.hugr_mlir = false → args.llvm_mlir = false →
      args.llvm = false → get_input_state args = Stage.GUPPY) ∧
    Stage.ge (get_input_state args) Stage.OBJECT = false ∧
    Stage.ge (get_input_state args) Stage.EXECUTABLE = false ∧
    (args.store_hugr = none → args.store_hugr_mlir = none →
      args.store_llvm_mlir = none → args.store_llvm = none →
      validate_args args (get_input_state args) = none) := by
  have hb : (get_input_state args).toNat ≤ Stage.LLVM.toNat ∧
      get_input_state args ≠ Stage.OBJECT ∧
      get_input_state args ≠ Stage.EXECUTABLE ∧
      Stage.ge (get_input_state args) Stage.OBJECT = false ∧
      Stage.ge (get_input_state args) Stage.EXECUTABLE = false := by
    cases h1 : args.hugr <;> cases h2 : args.hugr_mlir <;>
      cases h3 : args.llvm_mlir <;> cases h4 : args.llvm <;>
      simp [get_input_state, h1, h2, h3, h4, Stage.ge, Stage.toNat]
  refine ⟨hb.1, hb.2.1, hb.2.2.1, ?_, hb.2.2.2.1, hb.2.2.2.2, ?_⟩
  · intro h1 h2 h3 h4
    simp [get_input_state, h1, h2, h3, h4]
  · intro s1 s2 s3 s4
    simp [validate_args, store_requires, validateLoop, s1, s2, s3, s4,
      hb.2.2.2.1, hb.2.2.2.2]

/-- Witness for C10: with only `--store-obj` and `--store-bin` given,
validation passes for the default `GUPPY` input stage. -/
theorem input_stage_never_reaches_object_witness :
    validate_args { store_obj := some "x.o", store_bin := some "a.out" }
      (get_input_state { store_obj := some "x.o", store_bin := some "a.out" })
      = none :=
  (input_stage_never_reaches_object
    { store_obj := some "x.o", store_bin := some "a.out" }).2.2.2.2.2.2
    rfl rfl rfl rfl
